import Mathlib

/-!
Verification of the AWB (auto-white-balance) binding layer in `src/awb.rs`.

The repository is a Rust FFI wrapper around a vendor ISP library.  The file
`src/awb.rs` defines the trait `AutoWhiteBalance`, its implementation on
`Context` (each method performs exactly one native call, translates the
native integer status into `XCamResult`, and copies out-parameters into
owned return values), and four `From` conversions between the wrapped
enumeration `WbOpMode` and the native enumerations `ffi::opMode_t` and
`ffi::rk_aiq_wb_op_mode_t`, gated on the compile-time feature `v1_0`.

The sibling modules `ffi`, `error`, `types` and `context` are not part of
the sources; the shapes they contribute (the native enumeration variants,
the status-code translation `XCamError::from(..).ok()`) are modelled from
the spec and from how `awb.rs` uses them, as noted on each definition.

Feature gating is embedded as an explicit parameter: a `Feature` value
selects the compiled configuration, and `v1_0`-gated constructors and
match arms become `Bool`-dependent alternatives.  A constructor that does
not exist under a configuration makes the corresponding conversion return
`none` there (in Rust the input value is simply not representable).
Native calls are embedded by passing the native response (status code,
and for getters the value the native call wrote through its out-pointer,
`none` when it wrote nothing) as explicit arguments, and by returning the
list of native invocations the wrapper performed alongside its result.
-/

/-- Modelled from the spec: the compile-time version features `v1_0` … `v5_0`
selecting the native library major version.  Exactly one is active. -/
inductive Feature where
  | v1_0 | v2_0 | v3_0 | v4_0 | v5_0
deriving DecidableEq, Repr, Fintype

/-- Whether the `v1_0` feature is active (the gate used by the enum
conversions in `awb.rs`). -/
def Feature.isV10 : Feature → Bool
  | .v1_0 => true
  | _ => false

/-- Whether the configuration is in the `v4_0`/`v5_0` family, which selects
the `rk_aiq_uapi2_setWBMode` implementation of `set_wb_mode`
(`#[cfg(any(feature = "v4_0", feature = "v5_0"))]`). -/
def Feature.usesUapi2 : Feature → Bool
  | .v4_0 => true
  | .v5_0 => true
  | _ => false

namespace ffi

/-- Modelled from the spec: the native operating-mode enumeration
`ffi::opMode_t` (the `ffi` module is generated from the vendor header and is
not among the sources).  The variants are the ones `awb.rs` names:
`OP_AUTO`, `OP_SEMI_AUTO`, `OP_MANUAL` in match arms, and `OP_INVAL` as the
documented sentinel; any further native variant behaves like `OP_INVAL`
under the wildcard arm of `From<ffi::opMode_t> for WbOpMode`. -/
inductive opMode_t where
  | OP_AUTO
  | OP_SEMI_AUTO
  | OP_MANUAL
  | OP_INVAL
deriving DecidableEq, Repr, Fintype

/-- Modelled from the spec: the native white-balance mode enumeration
`ffi::rk_aiq_wb_op_mode_t`.  The `RK_AIQ_WB_MODE_INVALID` variant exists
only when the `v1_0` feature (header) is active, which is why the matching
arm in `awb.rs` is `#[cfg(feature = "v1_0")]`-gated and the match is still
exhaustive without it otherwise. -/
inductive rk_aiq_wb_op_mode_t where
  | RK_AIQ_WB_MODE_INVALID
  | RK_AIQ_WB_MODE_MANUAL
  | RK_AIQ_WB_MODE_AUTO
  | RK_AIQ_WB_MODE_MAX
deriving DecidableEq, Repr, Fintype

/-- Whether a `rk_aiq_wb_op_mode_t` variant exists under the configuration:
`RK_AIQ_WB_MODE_INVALID` only under `v1_0`, every other variant always. -/
def rk_aiq_wb_op_mode_t.availableIn (v10 : Bool) : rk_aiq_wb_op_mode_t → Prop
  | .RK_AIQ_WB_MODE_INVALID => v10 = true
  | _ => True

instance (v10 : Bool) (m : rk_aiq_wb_op_mode_t) :
    Decidable (m.availableIn v10) := by
  cases m <;> simp [rk_aiq_wb_op_mode_t.availableIn] <;> infer_instance

end ffi

/-- The wrapped operating-mode enumeration `WbOpMode` from `awb.rs`
(`Invalid` is `#[cfg(feature = "v1_0")]`-gated; `Manual`, `Auto`, `Max` are
unconditional).  The spec's `OpMode` return/argument type of the trait is
this wrapped operating-mode enumeration. -/
inductive WbOpMode where
  | Invalid
  | Manual
  | Auto
  | Max
deriving DecidableEq, Repr, Fintype

/-- Whether a `WbOpMode` variant exists under the configuration: `Invalid`
only under `v1_0`, every other variant always. -/
def WbOpMode.availableIn (v10 : Bool) : WbOpMode → Prop
  | .Invalid => v10 = true
  | _ => True

instance (v10 : Bool) (m : WbOpMode) : Decidable (m.availableIn v10) := by
  cases m <;> simp [WbOpMode.availableIn] <;> infer_instance

/-- `impl From<ffi::opMode_t> for WbOpMode` (awb.rs:153-169).  The
`#[cfg(feature = "v1_0")]` / `#[cfg(not(feature = "v1_0"))]` pairs of arms
become `if v10` alternatives; the wildcard arm covers `OP_INVAL` (and any
other native variant). -/
def WbOpMode.fromOpMode (v10 : Bool) (val : ffi.opMode_t) : WbOpMode :=
  match val with
  | .OP_AUTO => .Auto
  | .OP_SEMI_AUTO => if v10 then .Invalid else .Max
  | .OP_MANUAL => .Manual
  | .OP_INVAL => if v10 then .Invalid else .Max

/-- `impl From<ffi::rk_aiq_wb_op_mode_t> for WbOpMode` (awb.rs:171-182).
The `RK_AIQ_WB_MODE_INVALID` arm exists only under `v1_0`; under the other
configurations that input value itself does not exist, embedded as `none`. -/
def WbOpMode.fromRkWbOpMode (v10 : Bool) (val : ffi.rk_aiq_wb_op_mode_t) :
    Option WbOpMode :=
  match val with
  | .RK_AIQ_WB_MODE_INVALID => if v10 then some .Invalid else none
  | .RK_AIQ_WB_MODE_MANUAL => some .Manual
  | .RK_AIQ_WB_MODE_AUTO => some .Auto
  | .RK_AIQ_WB_MODE_MAX => some .Max

/-- `impl From<WbOpMode> for ffi::opMode_t` (awb.rs:184-195).  The
`WbOpMode::Invalid` arm exists only under `v1_0`; under the other
configurations that input value itself does not exist, embedded as `none`.
`Max` maps to the `OP_INVAL` sentinel in every configuration. -/
def WbOpMode.toOpMode (v10 : Bool) (val : WbOpMode) : Option ffi.opMode_t :=
  match val with
  | .Invalid => if v10 then some .OP_INVAL else none
  | .Manual => some .OP_MANUAL
  | .Auto => some .OP_AUTO
  | .Max => some .OP_INVAL

/-- `impl From<WbOpMode> for ffi::rk_aiq_wb_op_mode_t` (awb.rs:197-208).
The `WbOpMode::Invalid` arm exists only under `v1_0`. -/
def WbOpMode.toRkWbOpMode (v10 : Bool) (val : WbOpMode) :
    Option ffi.rk_aiq_wb_op_mode_t :=
  match val with
  | .Invalid => if v10 then some .RK_AIQ_WB_MODE_INVALID else none
  | .Manual => some .RK_AIQ_WB_MODE_MANUAL
  | .Auto => some .RK_AIQ_WB_MODE_AUTO
  | .Max => some .RK_AIQ_WB_MODE_MAX

/-- Modelled from the spec: the wrapped error type (`error` module not among
the sources).  "A single wrapped error type carrying the native integer
status code"; `XCamError::from` wraps a native status verbatim. -/
structure XCamError where
  code : Int
deriving DecidableEq, Repr

/-- Modelled from the spec: `XCamError::from(status)` — the native status
code is carried verbatim inside the error. -/
def XCamError.fromStatus (status : Int) : XCamError := ⟨status⟩

/-- The result type `XCamResult<T>` from the `types` module: success with a
value or failure with the wrapped error. -/
def XCamResult (α : Type) : Type := Except XCamError α

instance (α : Type) [DecidableEq α] : DecidableEq (XCamResult α) :=
  fun a b =>
    match a, b with
    | Except.ok x, Except.ok y =>
        if h : x = y then isTrue (by rw [h]) else isFalse (by intro hc; cases hc; exact h rfl)
    | Except.error e, Except.error f =>
        if h : e = f then isTrue (by rw [h]) else isFalse (by intro hc; cases hc; exact h rfl)
    | Except.ok _, Except.error _ => isFalse (by intro hc; cases hc)
    | Except.error _, Except.ok _ => isFalse (by intro hc; cases hc)

instance (α : Type) [Repr α] : Repr (XCamResult α) := by
  unfold XCamResult; infer_instance

/-- Modelled from the spec: `XCamError::ok()` — "a non-zero/non-success
native status is converted to a typed error and returned instead of the
requested value"; the zero status is native success. -/
def XCamError.ok (e : XCamError) : XCamResult Unit :=
  if e.code = 0 then Except.ok () else Except.error e

/-- `Result::map` as used in the getters of `awb.rs`: apply `f` to the
success value, keep the error unchanged. -/
def XCamResult.map {α β : Type} (r : XCamResult α) (f : α → β) : XCamResult β :=
  match r with
  | Except.ok a => Except.ok (f a)
  | Except.error e => Except.error e

/-- Modelled from the spec: the manual white-balance scene preset
enumeration `WbScene` from the `types` module (named lighting presets,
used in manual mode).  The binding copies scene values across the boundary
untouched, so only its identity matters here. -/
inductive WbScene where
  | Daylight
  | Cloudy
  | Tungsten
  | Fluorescent
deriving DecidableEq, Repr

instance : Inhabited WbScene := ⟨.Daylight⟩

/-- Modelled from the spec: the per-channel white-balance gain vector
`WbGain` from the `types` module ("a small numeric vector of per-channel
multipliers, e.g. red/green/blue gain factors").  The binding copies gain
values across the boundary untouched, so the numeric representation is
inessential; channels are embedded as integers. -/
structure WbGain where
  rgain : Int
  grgain : Int
  gbgain : Int
  bgain : Int
deriving DecidableEq, Repr

instance : Inhabited WbGain := ⟨0, 0, 0, 0⟩

/-- One invocation of a native entry point, recording the entry point and
the argument the wrapper passed (beyond the context handle). -/
inductive NativeCall where
  | getWBMode
  | setWBMode (m : ffi.opMode_t)
  | uapi2_setWBMode (m : ffi.opMode_t)
  | lockAWB
  | unlockAWB
  | getMWBScene
  | setMWBScene (s : WbScene)
  | getMWBGain
  | setMWBGain (g : WbGain)
  | getMWBCT
  | setMWBCT (ct : Nat)
deriving DecidableEq, Repr

namespace AutoWhiteBalance

/-- `get_wb_mode` (awb.rs:45-55).  The out slot `mode` is initialized to
`OP_INVAL`; the native call `rk_aiq_uapi_getWBMode` returns `status` and
writes `written` through the out-pointer (`none` when it writes nothing);
on success the slot's final value is converted via `mode.into()`. -/
def get_wb_mode (v10 : Bool) (status : Int) (written : Option ffi.opMode_t) :
    XCamResult WbOpMode × List NativeCall :=
  let mode := written.getD ffi.opMode_t.OP_INVAL
  ((XCamError.fromStatus status).ok.map (fun _ => WbOpMode.fromOpMode v10 mode),
    [NativeCall.getWBMode])

/-- `set_wb_mode`, both `cfg`-gated implementations (awb.rs:57-66 under
`v1_0`/`v2_0`/`v3_0` calling `rk_aiq_uapi_setWBMode`, awb.rs:68-77 under
`v4_0`/`v5_0` calling `rk_aiq_uapi2_setWBMode`).  Each passes `mode.into()`
and returns the translated status; `none` when `mode` is not representable
under the configuration (the `Invalid` constructor absent outside `v1_0`). -/
def set_wb_mode (feat : Feature) (status : Int) (mode : WbOpMode) :
    Option (XCamResult Unit × List NativeCall) :=
  match WbOpMode.toOpMode feat.isV10 mode with
  | none => none
  | some m =>
    if feat.usesUapi2 then
      some ((XCamError.fromStatus status).ok, [NativeCall.uapi2_setWBMode m])
    else
      some ((XCamError.fromStatus status).ok, [NativeCall.setWBMode m])

/-- `lock_awb` (awb.rs:79-81): one call to `rk_aiq_uapi_lockAWB`, translated
status returned; the wrapper keeps no state of its own. -/
def lock_awb (status : Int) : XCamResult Unit × List NativeCall :=
  ((XCamError.fromStatus status).ok, [NativeCall.lockAWB])

/-- `unlock_awb` (awb.rs:83-85): one call to `rk_aiq_uapi_unlockAWB`. -/
def unlock_awb (status : Int) : XCamResult Unit × List NativeCall :=
  ((XCamError.fromStatus status).ok, [NativeCall.unlockAWB])

/-- `get_mwb_scene` (awb.rs:87-97).  The out slot is initialized to
`Default::default()`; on success the slot's final value is returned. -/
def get_mwb_scene (status : Int) (written : Option WbScene) :
    XCamResult WbScene × List NativeCall :=
  let scene := written.getD default
  ((XCamError.fromStatus status).ok.map (fun _ => scene),
    [NativeCall.getMWBScene])

/-- `set_mwb_scene` (awb.rs:99-107): passes `scene.into()` to
`rk_aiq_uapi_setMWBScene` (the `Into<WbScene>` conversion happens at the
call boundary; the embedding takes the already-converted `WbScene`). -/
def set_mwb_scene (status : Int) (scene : WbScene) :
    XCamResult Unit × List NativeCall :=
  ((XCamError.fromStatus status).ok, [NativeCall.setMWBScene scene])

/-- `get_mwb_gain` (awb.rs:109-119).  The out slot is initialized to
`Default::default()`; on success the slot's final value is returned. -/
def get_mwb_gain (status : Int) (written : Option WbGain) :
    XCamResult WbGain × List NativeCall :=
  let gain := written.getD default
  ((XCamError.fromStatus status).ok.map (fun _ => gain),
    [NativeCall.getMWBGain])

/-- `set_mwb_gain` (awb.rs:121-129): passes `&mut gain.into()` to
`rk_aiq_uapi_setMWBGain` (a fresh converted copy; the caller's value is
unaffected). -/
def set_mwb_gain (status : Int) (gain : WbGain) :
    XCamResult Unit × List NativeCall :=
  ((XCamError.fromStatus status).ok, [NativeCall.setMWBGain gain])

/-- `get_mwb_ct` (awb.rs:131-138).  The out slot `ct: u32` is initialized to
`0`; on success the slot's final value is returned. -/
def get_mwb_ct (status : Int) (written : Option Nat) :
    XCamResult Nat × List NativeCall :=
  let ct := written.getD 0
  ((XCamError.fromStatus status).ok.map (fun _ => ct),
    [NativeCall.getMWBCT])

/-- `set_mwb_ct` (awb.rs:140-142): passes `ct` verbatim to
`rk_aiq_uapi_setMWBCT`. -/
def set_mwb_ct (status : Int) (ct : Nat) :
    XCamResult Unit × List NativeCall :=
  ((XCamError.fromStatus status).ok, [NativeCall.setMWBCT ct])

end AutoWhiteBalance

/-- C1: for every native operating-mode variant under each version
configuration (`v1_0` vs not), translating native→wrapped→native reproduces
the original variant wherever the round trip is defined: on `opMode_t`,
`OP_AUTO` and `OP_MANUAL` round-trip to themselves and every other input
(the catch-all) maps deterministically to the `OP_INVAL` sentinel, never to
another variant; on `rk_aiq_wb_op_mode_t`, every variant available in the
configuration round-trips to itself. -/
theorem roundtrip_native_wrapped_native (v10 : Bool) :
    (∀ v : ffi.opMode_t,
      WbOpMode.toOpMode v10 (WbOpMode.fromOpMode v10 v) =
        some (if v = .OP_AUTO ∨ v = .OP_MANUAL then v else .OP_INVAL)) ∧
    (∀ w : ffi.rk_aiq_wb_op_mode_t, ∀ m : WbOpMode,
      WbOpMode.fromRkWbOpMode v10 w = some m →
      WbOpMode.toRkWbOpMode v10 m = some w) := by
  revert v10; decide

/-- Witness for C1 at `v1_0`, `RK_AIQ_WB_MODE_MAX`. -/
theorem roundtrip_native_wrapped_native_witness :
    WbOpMode.toRkWbOpMode true WbOpMode.Max =
      some ffi.rk_aiq_wb_op_mode_t.RK_AIQ_WB_MODE_MAX :=
  (roundtrip_native_wrapped_native true).2
    ffi.rk_aiq_wb_op_mode_t.RK_AIQ_WB_MODE_MAX WbOpMode.Max (by decide)

/-- C2: every `ffi::opMode_t` input other than `OP_AUTO` and `OP_MANUAL` is
translated by `From<ffi::opMode_t> for WbOpMode` to a defined wrapped value:
`WbOpMode::Invalid` when the `v1_0` feature is enabled, `WbOpMode::Max`
otherwise — the conversion never fails. -/
theorem fromOpMode_catch_all (v10 : Bool) (v : ffi.opMode_t)
    (h1 : v ≠ .OP_AUTO) (h2 : v ≠ .OP_MANUAL) :
    WbOpMode.fromOpMode v10 v = (if v10 then WbOpMode.Invalid else WbOpMode.Max) := by
  revert h1 h2; revert v10 v; decide

/-- Witness for C2 at `v1_0`, `OP_SEMI_AUTO`. -/
theorem fromOpMode_catch_all_witness :
    WbOpMode.fromOpMode true ffi.opMode_t.OP_SEMI_AUTO =
      (if true then WbOpMode.Invalid else WbOpMode.Max) :=
  fromOpMode_catch_all true ffi.opMode_t.OP_SEMI_AUTO (by decide) (by decide)

/-- C3: `set_wb_mode` has exactly two mutually exclusive compile-time
implementations: under `v1_0`/`v2_0`/`v3_0` it performs exactly one call to
`rk_aiq_uapi_setWBMode`, under `v4_0`/`v5_0` exactly one call to
`rk_aiq_uapi2_setWBMode`; in both configurations it passes the converted
mode and returns the translated native status (identical external
behavior). -/
theorem set_wb_mode_version_gating (feat : Feature) (status : Int)
    (mode : WbOpMode) (m : ffi.opMode_t)
    (hm : WbOpMode.toOpMode feat.isV10 mode = some m) :
    AutoWhiteBalance.set_wb_mode feat status mode =
      some ((XCamError.fromStatus status).ok,
        [(if feat = .v4_0 ∨ feat = .v5_0 then NativeCall.uapi2_setWBMode m
          else NativeCall.setWBMode m)]) := by
  unfold AutoWhiteBalance.set_wb_mode
  rw [hm]
  cases feat <;> simp [Feature.usesUapi2]

/-- Witness for C3 at `v1_0`, status 0, `Auto`. -/
theorem set_wb_mode_version_gating_witness :
    AutoWhiteBalance.set_wb_mode Feature.v1_0 0 WbOpMode.Auto =
      some ((XCamError.fromStatus 0).ok,
        [(if Feature.v1_0 = .v4_0 ∨ Feature.v1_0 = .v5_0 then
            NativeCall.uapi2_setWBMode ffi.opMode_t.OP_AUTO
          else NativeCall.setWBMode ffi.opMode_t.OP_AUTO)]) :=
  set_wb_mode_version_gating Feature.v1_0 0 WbOpMode.Auto
    ffi.opMode_t.OP_AUTO (by decide)

/-- C4: for any non-zero (failure) native status, every operation of the
`AutoWhiteBalance` trait returns the wrapped error carrying that status
verbatim — never a default or partial value; each call has exactly the two
`Except` outcomes, with no retry or fallback. -/
theorem failure_returns_wrapped_error (v10 : Bool) (feat : Feature)
    (status : Int) (h : status ≠ 0)
    (wMode : Option ffi.opMode_t) (wScene : Option WbScene)
    (wGain : Option WbGain) (wCt : Option Nat)
    (mode : WbOpMode) (scene : WbScene) (gain : WbGain) (ct : Nat) :
    (AutoWhiteBalance.get_wb_mode v10 status wMode).1 =
      Except.error (XCamError.fromStatus status) ∧
    (∀ r : XCamResult Unit × List NativeCall,
      AutoWhiteBalance.set_wb_mode feat status mode = some r →
      r.1 = Except.error (XCamError.fromStatus status)) ∧
    (AutoWhiteBalance.lock_awb status).1 =
      Except.error (XCamError.fromStatus status) ∧
    (AutoWhiteBalance.unlock_awb status).1 =
      Except.error (XCamError.fromStatus status) ∧
    (AutoWhiteBalance.get_mwb_scene status wScene).1 =
      Except.error (XCamError.fromStatus status) ∧
    (AutoWhiteBalance.set_mwb_scene status scene).1 =
      Except.error (XCamError.fromStatus status) ∧
    (AutoWhiteBalance.get_mwb_gain status wGain).1 =
      Except.error (XCamError.fromStatus status) ∧
    (AutoWhiteBalance.set_mwb_gain status gain).1 =
      Except.error (XCamError.fromStatus status) ∧
    (AutoWhiteBalance.get_mwb_ct status wCt).1 =
      Except.error (XCamError.fromStatus status) ∧
    (AutoWhiteBalance.set_mwb_ct status ct).1 =
      Except.error (XCamError.fromStatus status) := by
  refine ⟨?_, ?hset, ?_, ?_, ?_, ?_, ?_, ?_, ?_, ?_⟩
  case hset =>
    intro r hr
    unfold AutoWhiteBalance.set_wb_mode at hr
    cases hmode : WbOpMode.toOpMode feat.isV10 mode with
    | none => rw [hmode] at hr; simp at hr
    | some m =>
      rw [hmode] at hr
      cases hu : feat.usesUapi2 <;> rw [hu] at hr <;>
        simp only [Bool.false_eq_true, if_false, if_true,
          Option.some.injEq] at hr <;>
        subst hr <;> simp [XCamError.ok, XCamError.fromStatus, h]
  all_goals
    simp [AutoWhiteBalance.get_wb_mode, AutoWhiteBalance.lock_awb,
      AutoWhiteBalance.unlock_awb, AutoWhiteBalance.get_mwb_scene,
      AutoWhiteBalance.set_mwb_scene, AutoWhiteBalance.get_mwb_gain,
      AutoWhiteBalance.set_mwb_gain, AutoWhiteBalance.get_mwb_ct,
      AutoWhiteBalance.set_mwb_ct, XCamError.ok, XCamError.fromStatus,
      XCamResult.map, h]

/-- Witness for C4 at status -1, `v1_0`, `Auto`, no out-writes. -/
theorem failure_returns_wrapped_error_witness :
    (AutoWhiteBalance.get_wb_mode true (-1) none).1 =
      Except.error (XCamError.fromStatus (-1)) ∧
    (∀ r : XCamResult Unit × List NativeCall,
      AutoWhiteBalance.set_wb_mode Feature.v1_0 (-1) WbOpMode.Auto = some r →
      r.1 = Except.error (XCamError.fromStatus (-1))) ∧
    (AutoWhiteBalance.lock_awb (-1)).1 =
      Except.error (XCamError.fromStatus (-1)) ∧
    (AutoWhiteBalance.unlock_awb (-1)).1 =
      Except.error (XCamError.fromStatus (-1)) ∧
    (AutoWhiteBalance.get_mwb_scene (-1) none).1 =
      Except.error (XCamError.fromStatus (-1)) ∧
    (AutoWhiteBalance.set_mwb_scene (-1) WbScene.Daylight).1 =
      Except.error (XCamError.fromStatus (-1)) ∧
    (AutoWhiteBalance.get_mwb_gain (-1) none).1 =
      Except.error (XCamError.fromStatus (-1)) ∧
    (AutoWhiteBalance.set_mwb_gain (-1) default).1 =
      Except.error (XCamError.fromStatus (-1)) ∧
    (AutoWhiteBalance.get_mwb_ct (-1) none).1 =
      Except.error (XCamError.fromStatus (-1)) ∧
    (AutoWhiteBalance.set_mwb_ct (-1) 6500).1 =
      Except.error (XCamError.fromStatus (-1)) :=
  failure_returns_wrapped_error true Feature.v1_0 (-1) (by decide)
    none none none none WbOpMode.Auto WbScene.Daylight default 6500

/-- C5: on a success (zero) native status, every getter returns exactly the
value the native call wrote through its out-pointer, copied untouched into
the owned return value; `get_wb_mode` additionally applies only the defined
enum translation `From<ffi::opMode_t> for WbOpMode` to it. -/
theorem success_getters_return_written_value (v10 : Bool) (v : ffi.opMode_t)
    (s : WbScene) (g : WbGain) (ct : Nat) :
    (AutoWhiteBalance.get_wb_mode v10 0 (some v)).1 =
      Except.ok (WbOpMode.fromOpMode v10 v) ∧
    (AutoWhiteBalance.get_mwb_scene 0 (some s)).1 = Except.ok s ∧
    (AutoWhiteBalance.get_mwb_gain 0 (some g)).1 = Except.ok g ∧
    (AutoWhiteBalance.get_mwb_ct 0 (some ct)).1 = Except.ok ct := by
  refine ⟨?_, ?_, ?_, ?_⟩ <;> rfl

/-- C6: every setter passes its argument through to the single native call
unchanged — the scene, gain and color-temperature values verbatim, the mode
as exactly its defined enum conversion — with no validation, range check or
other modification, and the trace is exactly one native invocation. -/
theorem setters_pass_argument_through (feat : Feature) (status : Int)
    (mode : WbOpMode) (m : ffi.opMode_t)
    (hm : WbOpMode.toOpMode feat.isV10 mode = some m)
    (scene : WbScene) (gain : WbGain) (ct : Nat) :
    (∃ r : XCamResult Unit,
      AutoWhiteBalance.set_wb_mode feat status mode =
        some (r, [(if feat.usesUapi2 then NativeCall.uapi2_setWBMode m
                   else NativeCall.setWBMode m)])) ∧
    (AutoWhiteBalance.set_mwb_scene status scene).2 =
      [NativeCall.setMWBScene scene] ∧
    (AutoWhiteBalance.set_mwb_gain status gain).2 =
      [NativeCall.setMWBGain gain] ∧
    (AutoWhiteBalance.set_mwb_ct status ct).2 =
      [NativeCall.setMWBCT ct] := by
  refine ⟨?_, rfl, rfl, rfl⟩
  refine ⟨(XCamError.fromStatus status).ok, ?_⟩
  unfold AutoWhiteBalance.set_wb_mode
  rw [hm]
  cases hu : feat.usesUapi2 <;> simp [hu]

/-- Witness for C6 at `v2_0`, status 0, `Manual`, `Daylight`, default gain,
color temperature 6500. -/
theorem setters_pass_argument_through_witness :
    (∃ r : XCamResult Unit,
      AutoWhiteBalance.set_wb_mode Feature.v2_0 0 WbOpMode.Manual =
        some (r, [(if Feature.v2_0.usesUapi2 then
                     NativeCall.uapi2_setWBMode ffi.opMode_t.OP_MANUAL
                   else NativeCall.setWBMode ffi.opMode_t.OP_MANUAL)])) ∧
    (AutoWhiteBalance.set_mwb_scene 0 WbScene.Daylight).2 =
      [NativeCall.setMWBScene WbScene.Daylight] ∧
    (AutoWhiteBalance.set_mwb_gain 0 default).2 =
      [NativeCall.setMWBGain default] ∧
    (AutoWhiteBalance.set_mwb_ct 0 6500).2 =
      [NativeCall.setMWBCT 6500] :=
  setters_pass_argument_through Feature.v2_0 0 WbOpMode.Manual
    ffi.opMode_t.OP_MANUAL (by decide) WbScene.Daylight default 6500

/-- C7: every enumeration translation is a pure total Lean function of its
input alone: `From<ffi::opMode_t> for WbOpMode` is defined on every input
in every configuration (and its output is always a variant available in
that configuration), and the other three `From` impls are defined on every
input variant available in the configuration, producing an available
output — none can fail or have a side effect. -/
theorem translations_pure_total (v10 : Bool) :
    (∀ v : ffi.opMode_t, (WbOpMode.fromOpMode v10 v).availableIn v10) ∧
    (∀ w : ffi.rk_aiq_wb_op_mode_t, w.availableIn v10 →
      ∃ m : WbOpMode, WbOpMode.fromRkWbOpMode v10 w = some m ∧
        m.availableIn v10) ∧
    (∀ m : WbOpMode, m.availableIn v10 →
      ∃ v : ffi.opMode_t, WbOpMode.toOpMode v10 m = some v) ∧
    (∀ m : WbOpMode, m.availableIn v10 →
      ∃ w : ffi.rk_aiq_wb_op_mode_t, WbOpMode.toRkWbOpMode v10 m = some w) := by
  revert v10; decide

/-- Witness for C7 at `v1_0`, `RK_AIQ_WB_MODE_INVALID`. -/
theorem translations_pure_total_witness :
    ∃ m : WbOpMode,
      WbOpMode.fromRkWbOpMode true ffi.rk_aiq_wb_op_mode_t.RK_AIQ_WB_MODE_INVALID =
        some m ∧ m.availableIn true :=
  (translations_pure_total true).2.1
    ffi.rk_aiq_wb_op_mode_t.RK_AIQ_WB_MODE_INVALID (by decide)

/-- C8: `lock_awb` and `unlock_awb` are stateless pass-throughs: each call
performs exactly one native request and returns the translation of that
call's own status, so any number of repetitions of the same call behaves
identically each time and can never introduce a translation error. -/
theorem lock_unlock_stateless_idempotent (status : Int) (n : Nat) :
    AutoWhiteBalance.lock_awb status =
      ((XCamError.fromStatus status).ok, [NativeCall.lockAWB]) ∧
    AutoWhiteBalance.unlock_awb status =
      ((XCamError.fromStatus status).ok, [NativeCall.unlockAWB]) ∧
    (List.replicate n status).map AutoWhiteBalance.lock_awb =
      List.replicate n ((XCamError.fromStatus status).ok, [NativeCall.lockAWB]) ∧
    (List.replicate n status).map AutoWhiteBalance.unlock_awb =
      List.replicate n
        ((XCamError.fromStatus status).ok, [NativeCall.unlockAWB]) := by
  refine ⟨rfl, rfl, ?_, ?_⟩ <;>
    simp [List.map_replicate, AutoWhiteBalance.lock_awb,
      AutoWhiteBalance.unlock_awb]

/-- C9: `From<WbOpMode> for ffi::opMode_t` sends both `Max` and (under
`v1_0`) `Invalid` to the single native value `OP_INVAL`, while
`From<WbOpMode> for ffi::rk_aiq_wb_op_mode_t` sends `Max` to
`RK_AIQ_WB_MODE_MAX`; hence under `v1_0` the round trip
`Max → opMode_t → WbOpMode` yields `Invalid`, not `Max`, whereas under any
non-`v1_0` configuration the wrapped→`opMode_t`→wrapped round trip is the
identity on every representable `WbOpMode` variant. -/
theorem sentinel_conflation_asymmetry :
    WbOpMode.toOpMode true WbOpMode.Max = some ffi.opMode_t.OP_INVAL ∧
    WbOpMode.toOpMode true WbOpMode.Invalid = some ffi.opMode_t.OP_INVAL ∧
    WbOpMode.toOpMode false WbOpMode.Max = some ffi.opMode_t.OP_INVAL ∧
    (∀ v10 : Bool,
      WbOpMode.toRkWbOpMode v10 WbOpMode.Max =
        some ffi.rk_aiq_wb_op_mode_t.RK_AIQ_WB_MODE_MAX) ∧
    (WbOpMode.toOpMode true WbOpMode.Max).map (WbOpMode.fromOpMode true) =
      some WbOpMode.Invalid ∧
    (∀ m : WbOpMode, ∀ v : ffi.opMode_t,
      WbOpMode.toOpMode false m = some v →
      WbOpMode.fromOpMode false v = m) := by
  decide

/-- Witness for C9: the non-`v1_0` round trip applied at `Max`. -/
theorem sentinel_conflation_asymmetry_witness :
    WbOpMode.fromOpMode false ffi.opMode_t.OP_INVAL = WbOpMode.Max :=
  sentinel_conflation_asymmetry.2.2.2.2.2
    WbOpMode.Max ffi.opMode_t.OP_INVAL (by decide)

/-- C10: each getter initializes its out slot to a defined default
(`OP_INVAL` for `get_wb_mode`, `Default::default()` for `get_mwb_scene` and
`get_mwb_gain`, `0` for `get_mwb_ct`), so a native call that reports
success without writing through the out-pointer yields exactly that
default back to the caller, never an undefined value. -/
theorem getters_default_initialized (v10 : Bool) :
    (AutoWhiteBalance.get_wb_mode v10 0 none).1 =
      Except.ok (WbOpMode.fromOpMode v10 ffi.opMode_t.OP_INVAL) ∧
    (AutoWhiteBalance.get_mwb_scene 0 none).1 =
      Except.ok (default : WbScene) ∧
    (AutoWhiteBalance.get_mwb_gain 0 none).1 =
      Except.ok (default : WbGain) ∧
    (AutoWhiteBalance.get_mwb_ct 0 none).1 = Except.ok 0 := by
  refine ⟨?_, ?_, ?_, ?_⟩ <;> rfl
